import Mathlib

/-!
Verification of the configuration / network-trust-classification core of
rust-muppet (`src/config.rs`).

The embedding mirrors the source:
  * `IpAddr` models `std::net::IpAddr` (v4 / v6 constructors).
  * `Json` is the abstract syntax of the structured text the program decodes
    (the textual JSON layer is represented by its parse tree).
  * `SdcNic`, `MantaDomain`, `Config`, `ZookeeperConfig`, `ZookeeperServer`
    mirror the structs of `config.rs`.  `HashSet` fields become `Finset`;
    the `ips : Option<HashSet<String>>` field becomes `Option (List String)`
    (only the resulting address *set* is observable, so deduplication and
    iteration order of the hash set are immaterial).
  * `decodeSdcNics` / `decodeConfig` mirror the serde-derived deserializers
    (exact field names as declared, unknown fields ignored, `Option` fields
    absent-or-null to `none`).
  * The `IpAddr` string parser of the standard library is a parameter
    `parseIp` of the functions that call it; `parseIpV4` is the concrete
    IPv4 grammar (dot-separated decimal octets, each at most 255) used to
    instantiate it on concrete inputs.
  * `parse_sdc_nics`, `add_untrusted_ips` (via `addUntrustedIpsSet`) and
    `get_untrusted_ips` are direct translations of `config.rs` lines 58-125.
-/

/-- Models `std::net::IpAddr`: either four IPv4 octets or IPv6 segments. -/
inductive IpAddr where
  | v4 (a b c d : Nat)
  | v6 (segs : List Nat)
deriving DecidableEq, Repr

/-- The host portion of an `ip/netmask` string: `config.rs` lines 82-83
split on the slash character and keep the first component (`v[0]`), i.e.
the characters before the first slash. -/
def hostPart (s : String) : String :=
  String.mk (s.data.takeWhile (fun c => c ≠ '/'))

/-- The maximal groups of characters separated by `sep` (the semantics of
splitting a string on a separator character). -/
def splitChars (sep : Char) : List Char → List (List Char)
  | [] => [[]]
  | c :: cs =>
      match splitChars sep cs with
      | [] => if c = sep then [[], []] else [[c]]
      | g :: gs => if c = sep then [] :: g :: gs else (c :: g) :: gs

/-- The numeric value of a decimal digit character. -/
def digitVal (c : Char) : Option Nat :=
  if c.isDigit then some (c.toNat - 48) else none

/-- One digit group of an IPv4 dotted-quad: nonempty, all decimal digits,
value at most 255 (the grammar accepted by the 2019-era
`Ipv4Addr::from_str`). -/
def parseOctet (l : List Char) : Option Nat :=
  match l with
  | [] => none
  | _ =>
      match l.mapM digitVal with
      | some ds =>
          let n := ds.foldl (fun a d => a * 10 + d) 0
          if n ≤ 255 then some n else none
      | none => none

/-- The IPv4 case of `IpAddr::from_str`: exactly four dot-separated decimal
octet groups. Used to instantiate the abstract `parseIp` parameter on the
concrete (all-IPv4) inputs of the scenarios. -/
def parseIpV4 (s : String) : Option IpAddr :=
  match (splitChars '.' s.data).mapM parseOctet with
  | some [a, b, c, d] => some (IpAddr.v4 a b c d)
  | _ => none

/-- Mirrors `struct SdcNic { ips: Option<HashSet<String>>, ip: Option<IpAddr> }`
(`config.rs` lines 17-21). -/
structure SdcNic where
  ips : Option (List String)
  ip : Option IpAddr
deriving DecidableEq, Repr

/-- Mirrors `struct MantaDomain(pub String)` (`config.rs` line 24). -/
structure MantaDomain where
  val : String
deriving DecidableEq, Repr

/-- Mirrors `struct ZookeeperServer { host: String, port: u32 }`. -/
structure ZookeeperServer where
  host : String
  port : Nat
deriving DecidableEq, Repr

/-- Mirrors `struct ZookeeperConfig { servers: Vec<ZookeeperServer>, timeout: u64 }`. -/
structure ZookeeperConfig where
  servers : List ZookeeperServer
  timeout : Nat
deriving DecidableEq, Repr

/-- Mirrors `struct Config` (`config.rs` lines 26-35); the field names are the
ones the serde derive accepts. -/
structure Config where
  name : MantaDomain
  trustedIP : IpAddr
  adminIPs : Option (Finset IpAddr)
  mantaIPs : Option (Finset IpAddr)
  untrustedIPs : Option (Finset IpAddr)
  zookeeper : ZookeeperConfig
deriving DecidableEq

/-- Parse tree of the structured text the program decodes. -/
inductive Json where
  | null
  | bool (b : Bool)
  | num (n : Nat)
  | str (s : String)
  | arr (elems : List Json)
  | obj (fields : List (String × Json))

/-- First value bound to key `k` in the field list of an object. -/
def getField (fs : List (String × Json)) (k : String) : Option Json :=
  (fs.find? (fun p => p.1 == k)).map Prod.snd

/-- serde decoding of one `SdcNic` record: the declared fields `ips` and `ip`
are read (absent or null `Option` fields give `none`), all other keys are
ignored, and a present field of the wrong shape is an error. -/
def decodeSdcNic (parseIp : String → Option IpAddr) (j : Json) :
    Except String SdcNic :=
  match j with
  | Json.obj fs => do
      let ips ← match getField fs "ips" with
        | none => Except.ok none
        | some Json.null => Except.ok none
        | some (Json.arr es) =>
            (es.mapM (fun e => match e with
              | Json.str s => Except.ok s
              | _ => Except.error "invalid type: expected a string in ips")).map some
        | some _ => Except.error "invalid type: expected an array for ips"
      let ip ← match getField fs "ip" with
        | none => Except.ok none
        | some Json.null => Except.ok none
        | some (Json.str s) =>
            match parseIp s with
            | some a => Except.ok (some a)
            | none => Except.error ("invalid IP address literal " ++ s)
        | some _ => Except.error "invalid type: expected a string for ip"
      return { ips := ips, ip := ip }
  | _ => Except.error "invalid type: expected a nic record object"

/-- serde decoding of `Vec<SdcNic>`: the whole input must be a list of
records, otherwise the decode fails (`config.rs` line 59). -/
def decodeSdcNics (parseIp : String → Option IpAddr) (j : Json) :
    Except String (List SdcNic) :=
  match j with
  | Json.arr es => es.mapM (decodeSdcNic parseIp)
  | _ => Except.error "invalid type: expected a list of nic records"

/-- The addresses one nic record contributes (`config.rs` lines 70-92): a
record with no `ips` list but an `ip` uses that address; a record with an
`ips` list strips each entry to its host portion and keeps the entries that
parse, skipping the rest; a record with neither contributes nothing. -/
def nicIps (parseIp : String → Option IpAddr) (nic : SdcNic) : List IpAddr :=
  match nic with
  | { ips := none, ip := some ip } => [ip]
  | { ips := some ips, ip := _ } =>
      ips.filterMap (fun ipStr => parseIp (hostPart ipStr))
  | { ips := none, ip := none } => []

/-- The loop and final `collect` of `parse_sdc_nics` (`config.rs` lines
68-95) applied to the already-decoded records: all contributed addresses,
collected into a set. -/
def parseSdcNicsRecords (parseIp : String → Option IpAddr)
    (nics : List SdcNic) : Finset IpAddr :=
  (nics.flatMap (nicIps parseIp)).toFinset

/-- `parse_sdc_nics` (`config.rs` lines 58-96): decode the input as a list of
nic records (failing the whole operation if that is impossible), then extract
the address set. -/
def parse_sdc_nics (parseIp : String → Option IpAddr) (j : Json) :
    Except String (Finset IpAddr) :=
  (decodeSdcNics parseIp j).map (parseSdcNicsRecords parseIp)

/-- The set-algebra of `Config::add_untrusted_ips` (`config.rs` lines
104-118) applied to an already-parsed inventory set: subtract `mantaIPs`
and `adminIPs` when present, remove `trustedIP`, and store the result,
normalizing an empty result to `none`. -/
def addUntrustedIpsSet (c : Config) (sdcIps : Finset IpAddr) : Config :=
  let s1 := match c.mantaIPs with
    | some manta => sdcIps \ manta
    | none => sdcIps
  let s2 := match c.adminIPs with
    | some admin => s1 \ admin
    | none => s1
  let s3 := s2.erase c.trustedIP
  if s3 = ∅ then { c with untrustedIPs := none }
  else { c with untrustedIPs := some s3 }

/-- `Config::add_untrusted_ips` (`config.rs` lines 101-121): parse the nic
description, propagating a decode failure to the caller, then update the
`untrustedIPs` field from the parsed inventory. -/
def add_untrusted_ips (parseIp : String → Option IpAddr) (c : Config)
    (j : Json) : Except String Config :=
  (parse_sdc_nics parseIp j).map (addUntrustedIpsSet c)

/-- `Config::get_untrusted_ips` (`config.rs` lines 123-125). -/
def get_untrusted_ips (c : Config) : Option (Finset IpAddr) :=
  c.untrustedIPs

/-- The untrusted set as read through the accessor, with absence read as the
empty set. -/
def untrustedSet (c : Config) : Finset IpAddr :=
  (get_untrusted_ips c).getD ∅

/-! ### serde decoding of `Config`

`Config::from_file` (`config.rs` lines 127-135) opens the file and runs the
serde-derived deserializer for `Config` on its contents; the file read is
left unmodelled, and `decodeConfig` below is the deserializer, applied to
the parse tree of the text in the file.  The derive accepts exactly
the field names declared on the struct (`name`, `trustedIP`, `adminIPs`,
`mantaIPs`, `untrustedIPs`, `zookeeper`): there is no alias attribute, so no
other spelling of a field name is recognized; unknown keys are ignored and
a missing required field is a decode error. -/

/-- serde decoding of an `IpAddr` value: a string parsed by the address
parser. -/
def decodeIp (parseIp : String → Option IpAddr) (j : Json) :
    Except String IpAddr :=
  match j with
  | Json.str s =>
      match parseIp s with
      | some a => Except.ok a
      | none => Except.error ("invalid IP address literal " ++ s)
  | _ => Except.error "invalid type: expected a string for an IP address"

/-- serde decoding of a `HashSet<IpAddr>` value: an array of address
strings, collected into a set. -/
def decodeIpSet (parseIp : String → Option IpAddr) (j : Json) :
    Except String (Finset IpAddr) :=
  match j with
  | Json.arr es => (es.mapM (decodeIp parseIp)).map List.toFinset
  | _ => Except.error "invalid type: expected an array of IP addresses"

/-- serde decoding of an `Option<HashSet<IpAddr>>` field: absent or null
gives `none`, otherwise the set is decoded. -/
def decodeOptIpSet (parseIp : String → Option IpAddr)
    (fs : List (String × Json)) (k : String) :
    Except String (Option (Finset IpAddr)) :=
  match getField fs k with
  | none => Except.ok none
  | some Json.null => Except.ok none
  | some j => (decodeIpSet parseIp j).map some

/-- serde decoding of the required `name` field (`MantaDomain` is a newtype
over `String`, so it decodes from a plain string). -/
def decodeName (fs : List (String × Json)) : Except String MantaDomain :=
  match getField fs "name" with
  | some (Json.str s) => Except.ok { val := s }
  | some _ => Except.error "invalid type for field name"
  | none => Except.error "missing field name"

/-- serde decoding of the required `trustedIP` field. -/
def decodeTrusted (parseIp : String → Option IpAddr)
    (fs : List (String × Json)) : Except String IpAddr :=
  match getField fs "trustedIP" with
  | some j => decodeIp parseIp j
  | none => Except.error "missing field trustedIP"

/-- serde decoding of one `ZookeeperServer` record. -/
def decodeZkServer (j : Json) : Except String ZookeeperServer :=
  match j with
  | Json.obj fs => do
      let host ← match getField fs "host" with
        | some (Json.str s) => Except.ok s
        | some _ => Except.error "invalid type for field host"
        | none => Except.error "missing field host"
      let port ← match getField fs "port" with
        | some (Json.num n) => Except.ok n
        | some _ => Except.error "invalid type for field port"
        | none => Except.error "missing field port"
      return { host := host, port := port }
  | _ => Except.error "invalid type: expected a server object"

/-- serde decoding of the required `zookeeper` field. -/
def decodeZookeeper (fs : List (String × Json)) :
    Except String ZookeeperConfig :=
  match getField fs "zookeeper" with
  | some (Json.obj zfs) => do
      let servers ← match getField zfs "servers" with
        | some (Json.arr es) => es.mapM decodeZkServer
        | some _ => Except.error "invalid type for field servers"
        | none => Except.error "missing field servers"
      let timeout ← match getField zfs "timeout" with
        | some (Json.num n) => Except.ok n
        | some _ => Except.error "invalid type for field timeout"
        | none => Except.error "missing field timeout"
      return { servers := servers, timeout := timeout }
  | some _ => Except.error "invalid type for field zookeeper"
  | none => Except.error "missing field zookeeper"

/-- The serde-derived deserializer for `Config` (`config.rs` lines 26-35):
exactly the declared field names, `Option` fields absent-or-null to `none`,
required fields `name`, `trustedIP` and `zookeeper`. -/
def decodeConfig (parseIp : String → Option IpAddr) (j : Json) :
    Except String Config :=
  match j with
  | Json.obj fs => do
      let name ← decodeName fs
      let trusted ← decodeTrusted parseIp fs
      let admin ← decodeOptIpSet parseIp fs "adminIPs"
      let manta ← decodeOptIpSet parseIp fs "mantaIPs"
      let untrusted ← decodeOptIpSet parseIp fs "untrustedIPs"
      let zk ← decodeZookeeper fs
      return { name := name, trustedIP := trusted, adminIPs := admin,
               mantaIPs := manta, untrustedIPs := untrusted, zookeeper := zk }
  | _ => Except.error "invalid type: expected a config object"

/-! ### Concrete scenario data

The end-to-end scenario of the spec and of the
`only_unconfigured_are_untrusted` test: trusted address `127.0.0.1`, one
admin address `192.168.1.171`, one manta (service) address
`192.168.118.13`, two unaccounted-for addresses `10.77.77.44` and
`10.77.77.55`. -/

def ipTrusted : IpAddr := IpAddr.v4 127 0 0 1

def ipAdmin : IpAddr := IpAddr.v4 192 168 1 171

def ipManta : IpAddr := IpAddr.v4 192 168 118 13

def ipU1 : IpAddr := IpAddr.v4 10 77 77 44

def ipU2 : IpAddr := IpAddr.v4 10 77 77 55

def cfgScenario : Config :=
  { name := { val := "test" }
    trustedIP := ipTrusted
    adminIPs := some {ipAdmin}
    mantaIPs := some {ipManta}
    untrustedIPs := none
    zookeeper := { servers := [{ host := "zkhost", port := 9000 }], timeout := 1000 } }

def invScenario : Finset IpAddr := {ipAdmin, ipManta, ipTrusted, ipU1, ipU2}

/-! ### Helper lemmas -/

/-- The stored untrusted field after classification is the computed
difference, normalized to `none` when empty. -/
theorem addUntrustedIpsSet_untrusted (c : Config) (inv : Finset IpAddr) :
    (addUntrustedIpsSet c inv).untrustedIPs =
      (if ((inv \ c.mantaIPs.getD ∅) \ c.adminIPs.getD ∅).erase c.trustedIP = ∅
       then none
       else some (((inv \ c.mantaIPs.getD ∅) \ c.adminIPs.getD ∅).erase c.trustedIP)) := by
  unfold addUntrustedIpsSet
  rcases c with ⟨name, trusted, admin, manta, untrusted, zk⟩
  cases manta <;> cases admin <;> simp <;> split <;> simp

/-- The untrusted set read through the accessor after classification is
exactly the computed difference. -/
theorem untrustedSet_addUntrustedIpsSet (c : Config) (inv : Finset IpAddr) :
    untrustedSet (addUntrustedIpsSet c inv) =
      ((inv \ c.mantaIPs.getD ∅) \ c.adminIPs.getD ∅).erase c.trustedIP := by
  rw [untrustedSet, get_untrusted_ips, addUntrustedIpsSet_untrusted]
  split
  · simpa using (Eq.symm (by assumption))
  · rfl

/-- Membership in the parsed address set: an address is in the result iff
some record contributes it. -/
theorem mem_parseSdcNicsRecords (parseIp : String → Option IpAddr)
    (nics : List SdcNic) (a : IpAddr) :
    a ∈ parseSdcNicsRecords parseIp nics ↔
      ∃ nic ∈ nics, a ∈ nicIps parseIp nic := by
  simp [parseSdcNicsRecords, List.mem_flatMap]

/-- The addresses one record contributes, characterized by its shape. -/
theorem mem_nicIps (parseIp : String → Option IpAddr) (nic : SdcNic)
    (a : IpAddr) :
    a ∈ nicIps parseIp nic ↔
      ((∃ l, nic.ips = some l ∧ ∃ s ∈ l, parseIp (hostPart s) = some a) ∨
       (nic.ips = none ∧ nic.ip = some a)) := by
  obtain ⟨ips, ip⟩ := nic
  cases ips <;> cases ip <;> simp [nicIps, List.mem_filterMap, eq_comm]

/-! ### Claims -/

/-- C1: for every config whose untrusted set is absent and every inventory
set, the classification step stores as the untrusted set (read through the
accessor) exactly the inventory minus the service-address (manta) set, minus
the admin-address set, minus the singleton trusted address. -/
theorem classify_untrusted_eq_difference (c : Config) (inv : Finset IpAddr)
    (_h : c.untrustedIPs = none) :
    untrustedSet (addUntrustedIpsSet c inv) =
      ((inv \ c.mantaIPs.getD ∅) \ c.adminIPs.getD ∅) \ {c.trustedIP} := by
  rw [untrustedSet_addUntrustedIpsSet, Finset.sdiff_singleton_eq_erase]

/-- C1 witness: the concrete scenario with trusted address 127.0.0.1, admin
set {192.168.1.171}, manta set {192.168.118.13} and the five-address
inventory yields exactly {10.77.77.44, 10.77.77.55}. -/
theorem classify_untrusted_eq_difference_witness :
    cfgScenario.untrustedIPs = none ∧
    untrustedSet (addUntrustedIpsSet cfgScenario invScenario) = {ipU1, ipU2} := by
  refine ⟨rfl, ?_⟩
  have h := classify_untrusted_eq_difference cfgScenario invScenario rfl
  rw [h]
  decide

/-- C2: after the classification step the trusted address is not a member of
the stored untrusted set, and when the admin or manta (service) set is
present its intersection with the untrusted set is empty. -/
theorem classify_invariants (c : Config) (inv : Finset IpAddr) :
    c.trustedIP ∉ untrustedSet (addUntrustedIpsSet c inv) ∧
    (∀ admin, c.adminIPs = some admin →
      admin ∩ untrustedSet (addUntrustedIpsSet c inv) = ∅) ∧
    (∀ manta, c.mantaIPs = some manta →
      manta ∩ untrustedSet (addUntrustedIpsSet c inv) = ∅) := by
  rw [untrustedSet_addUntrustedIpsSet]
  refine ⟨Finset.not_mem_erase _ _, ?_, ?_⟩
  · intro admin ha
    rw [Finset.eq_empty_iff_forall_not_mem]
    intro x hx
    rw [Finset.mem_inter, Finset.mem_erase, Finset.mem_sdiff] at hx
    rw [ha] at hx
    exact hx.2.2.2 hx.1
  · intro manta hm
    rw [Finset.eq_empty_iff_forall_not_mem]
    intro x hx
    rw [Finset.mem_inter, Finset.mem_erase, Finset.mem_sdiff,
      Finset.mem_sdiff] at hx
    rw [hm] at hx
    exact hx.2.2.1.2 hx.1

/-- C2 witness: the invariants at the concrete scenario config and
inventory. -/
theorem classify_invariants_witness :
    cfgScenario.trustedIP ∉ untrustedSet (addUntrustedIpsSet cfgScenario invScenario) ∧
    ({ipAdmin} : Finset IpAddr) ∩
      untrustedSet (addUntrustedIpsSet cfgScenario invScenario) = ∅ ∧
    ({ipManta} : Finset IpAddr) ∩
      untrustedSet (addUntrustedIpsSet cfgScenario invScenario) = ∅ := by
  obtain ⟨h1, h2, h3⟩ := classify_invariants cfgScenario invScenario
  exact ⟨h1, h2 {ipAdmin} rfl, h3 {ipManta} rfl⟩

/-- C3 counterexample: a config that already stores the non-empty untrusted
set {10.77.77.44}, classified against the empty inventory, comes back with
its untrusted field overwritten to `none` — not unchanged, so the
classification step is not a no-op on configs with a non-empty untrusted
set. -/
theorem classify_not_noop_counterexample :
    ({ cfgScenario with untrustedIPs := some {ipU1} } : Config).untrustedIPs
        = some {ipU1} ∧
    ({ipU1} : Finset IpAddr) ≠ ∅ ∧
    (addUntrustedIpsSet { cfgScenario with untrustedIPs := some {ipU1} }
        ∅).untrustedIPs ≠ some {ipU1} := by
  refine ⟨rfl, by decide, ?_⟩
  decide

/-- C3 (amended): the classification step recomputes unconditionally — the
resulting untrusted field depends only on the inventory and the other config
fields, never on the previously stored untrusted field, so a pre-existing
non-empty untrusted set is overwritten rather than preserved. -/
theorem classify_ignores_previous_untrusted (c : Config)
    (inv : Finset IpAddr) (u : Option (Finset IpAddr)) :
    (addUntrustedIpsSet { c with untrustedIPs := u } inv).untrustedIPs =
      (addUntrustedIpsSet c inv).untrustedIPs := by
  rw [addUntrustedIpsSet_untrusted, addUntrustedIpsSet_untrusted]

/-- C7: when the computed difference is empty the classification step stores
the untrusted field as absent (never as a present-but-empty set), and the
accessor reads absence and present-but-empty as the same empty untrusted
set. -/
theorem classify_empty_normalization (c : Config) (inv : Finset IpAddr) :
    (((inv \ c.mantaIPs.getD ∅) \ c.adminIPs.getD ∅) \ {c.trustedIP} = ∅ →
      get_untrusted_ips (addUntrustedIpsSet c inv) = none) ∧
    get_untrusted_ips (addUntrustedIpsSet c inv) ≠ some ∅ ∧
    (∀ c' : Config, untrustedSet { c' with untrustedIPs := none } =
      untrustedSet { c' with untrustedIPs := some ∅ }) := by
  rw [Finset.sdiff_singleton_eq_erase, get_untrusted_ips,
    addUntrustedIpsSet_untrusted]
  refine ⟨?_, ?_, fun c' => rfl⟩
  · intro h
    rw [if_pos h]
  · split
    · exact fun hc => Option.noConfusion hc
    · intro hc
      exact absurd (Option.some.inj hc) (by assumption)

/-- C7 witness: classifying the scenario config against the inventory
containing only the trusted address stores `none`. -/
theorem classify_empty_normalization_witness :
    ((({ipTrusted} : Finset IpAddr) \ cfgScenario.mantaIPs.getD ∅) \
        cfgScenario.adminIPs.getD ∅) \ {cfgScenario.trustedIP} = ∅ ∧
    get_untrusted_ips (addUntrustedIpsSet cfgScenario {ipTrusted}) = none := by
  have h := classify_empty_normalization cfgScenario {ipTrusted}
  exact ⟨by decide, h.1 (by decide)⟩

/-- C10: the classification step changes at most the untrusted field — the
domain name, trusted address, admin set, manta (service) set and the
zookeeper endpoint list and timeout are all unchanged. -/
theorem classify_frame (c : Config) (inv : Finset IpAddr) :
    (addUntrustedIpsSet c inv).name = c.name ∧
    (addUntrustedIpsSet c inv).trustedIP = c.trustedIP ∧
    (addUntrustedIpsSet c inv).adminIPs = c.adminIPs ∧
    (addUntrustedIpsSet c inv).mantaIPs = c.mantaIPs ∧
    (addUntrustedIpsSet c inv).zookeeper = c.zookeeper := by
  rcases c with ⟨name, trusted, admin, manta, untrusted, zk⟩
  unfold addUntrustedIpsSet
  cases manta <;> cases admin <;> simp <;> split <;> simp

/-- C4 counterexample: `add_untrusted_ips` itself contains an error path —
applied to input that is not a record list it returns an error rather than
succeeding, because it parses the inventory text internally instead of
receiving an already-parsed set from the caller. -/
theorem add_untrusted_ips_fails_counterexample :
    (add_untrusted_ips parseIpV4 cfgScenario
      (Json.str "this is not a nic list")).isOk = false := by
  rfl

/-- C4 (amended): the only error path in `add_untrusted_ips` is the decoding
of its textual input — whenever the input decodes as a record list, the call
succeeds, and the set-algebra classification applied to the parsed inventory
is total. -/
theorem add_untrusted_ips_ok_of_decode (parseIp : String → Option IpAddr)
    (c : Config) (j : Json) (nics : List SdcNic)
    (h : decodeSdcNics parseIp j = Except.ok nics) :
    add_untrusted_ips parseIp c j =
      Except.ok (addUntrustedIpsSet c (parseSdcNicsRecords parseIp nics)) := by
  rw [add_untrusted_ips, parse_sdc_nics, h]
  rfl

/-- C4 amended witness: the empty record list decodes, and the call
succeeds on it. -/
theorem add_untrusted_ips_ok_of_decode_witness :
    decodeSdcNics parseIpV4 (Json.arr []) = Except.ok [] ∧
    add_untrusted_ips parseIpV4 cfgScenario (Json.arr []) =
      Except.ok (addUntrustedIpsSet cfgScenario (parseSdcNicsRecords parseIpV4 [])) :=
  ⟨rfl, add_untrusted_ips_ok_of_decode parseIpV4 cfgScenario (Json.arr []) [] rfl⟩

/-- C5: per-record policy — a record with the multi-address list contributes
each entry stripped of its `/<prefix>` suffix and parsed, and the list takes
precedence over the single-address field; a record with only the
single-address field contributes exactly that address; a record with neither
contributes nothing; the overall output is the deduplicated set of all
contributions (concretely, the entry `10.0.0.10/24` yields `10.0.0.10` even
when a different single address is also present). -/
theorem nic_record_policy (parseIp : String → Option IpAddr) :
    (∀ (l : List String) (ipOpt : Option IpAddr),
      nicIps parseIp { ips := some l, ip := ipOpt } =
        l.filterMap (fun s => parseIp (hostPart s))) ∧
    (∀ a : IpAddr, nicIps parseIp { ips := none, ip := some a } = [a]) ∧
    nicIps parseIp { ips := none, ip := none } = [] ∧
    hostPart "10.0.0.10/24" = "10.0.0.10" ∧
    nicIps parseIpV4
        { ips := some ["10.0.0.10/24"], ip := some (IpAddr.v4 1 2 3 4) } =
      [IpAddr.v4 10 0 0 10] ∧
    (∀ (nics : List SdcNic) (a : IpAddr),
      a ∈ parseSdcNicsRecords parseIp nics ↔
        ∃ nic ∈ nics, a ∈ nicIps parseIp nic) := by
  refine ⟨fun l ipOpt => rfl, fun a => rfl, rfl, by decide, by decide,
    mem_parseSdcNicsRecords parseIp⟩

/-- C6: whenever the input decodes as a record list the parse succeeds even
if some multi-address entries are unparsable, and the resulting set contains
exactly the addresses of validly parsed entries (and legacy single-address
fields) — every unparsable entry is excluded. -/
theorem bad_entries_skipped (parseIp : String → Option IpAddr) (j : Json)
    (nics : List SdcNic) (h : decodeSdcNics parseIp j = Except.ok nics) :
    parse_sdc_nics parseIp j =
      Except.ok (parseSdcNicsRecords parseIp nics) ∧
    ∀ a : IpAddr, a ∈ parseSdcNicsRecords parseIp nics ↔
      ((∃ nic ∈ nics, ∃ l, nic.ips = some l ∧
          ∃ s ∈ l, parseIp (hostPart s) = some a) ∨
       (∃ nic ∈ nics, nic.ips = none ∧ nic.ip = some a)) := by
  constructor
  · rw [parse_sdc_nics, h]
    rfl
  · intro a
    rw [mem_parseSdcNicsRecords]
    constructor
    · rintro ⟨nic, hnic, hmem⟩
      rcases (mem_nicIps parseIp nic a).mp hmem with hl | hr
      · exact Or.inl ⟨nic, hnic, hl⟩
      · exact Or.inr ⟨nic, hnic, hr⟩
    · rintro (⟨nic, hnic, hl⟩ | ⟨nic, hnic, hr⟩)
      · exact ⟨nic, hnic, (mem_nicIps parseIp nic a).mpr (Or.inl hl)⟩
      · exact ⟨nic, hnic, (mem_nicIps parseIp nic a).mpr (Or.inr hr)⟩

/-- A record list holding one unparsable entry `not-an-ip` among valid
entries, as a parse tree (with an ignored extra `mac` key). -/
def jsonWithBadEntry : Json :=
  Json.arr
    [Json.obj [("ips", Json.arr [Json.str "10.77.77.44/24", Json.str "not-an-ip"]),
               ("mac", Json.str "90:b8:d0:00:c0:aa")],
     Json.obj [("ip", Json.str "192.168.118.13")]]

/-- The decoded records of `jsonWithBadEntry`. -/
def nicsWithBadEntry : List SdcNic :=
  [{ ips := some ["10.77.77.44/24", "not-an-ip"], ip := none },
   { ips := none, ip := some ipManta }]

/-- C6 witness: a record list holding one unparsable entry `not-an-ip`
among valid entries decodes, parses successfully, and yields exactly the
valid addresses. -/
theorem bad_entries_skipped_witness :
    decodeSdcNics parseIpV4 jsonWithBadEntry = Except.ok nicsWithBadEntry ∧
    parse_sdc_nics parseIpV4 jsonWithBadEntry =
      Except.ok (parseSdcNicsRecords parseIpV4 nicsWithBadEntry) ∧
    parseSdcNicsRecords parseIpV4 nicsWithBadEntry = {ipU1, ipManta} := by
  refine ⟨rfl, ?_, by decide⟩
  exact (bad_entries_skipped parseIpV4 jsonWithBadEntry nicsWithBadEntry rfl).1

/-- C8: input that cannot be decoded as the expected list of records fails
the whole parse with the decoding error — no partial or empty success. -/
theorem undecodable_input_fails (parseIp : String → Option IpAddr)
    (j : Json) (e : String) (h : decodeSdcNics parseIp j = Except.error e) :
    parse_sdc_nics parseIp j = Except.error e := by
  rw [parse_sdc_nics, h]
  rfl

/-- C8 witness: a bare object instead of a list fails with the decoding
error. -/
theorem undecodable_input_fails_witness :
    decodeSdcNics parseIpV4 (Json.obj []) =
      Except.error "invalid type: expected a list of nic records" ∧
    parse_sdc_nics parseIpV4 (Json.obj []) =
      Except.error "invalid type: expected a list of nic records" :=
  ⟨rfl, undecodable_input_fails parseIpV4 (Json.obj []) _ rfl⟩

/-- A configuration parse tree using the camel-case field names declared on
the struct (`name`, `trustedIP`, `adminIPs`, `mantaIPs`, `zookeeper`). -/
def camelConfigFields : List (String × Json) :=
  [("name", Json.str "test"),
   ("trustedIP", Json.str "127.0.0.1"),
   ("adminIPs", Json.arr [Json.str "192.168.1.171"]),
   ("mantaIPs", Json.arr [Json.str "192.168.118.13"]),
   ("zookeeper", Json.obj
     [("servers", Json.arr
        [Json.obj [("host", Json.str "zkhost"), ("port", Json.num 9000)]]),
      ("timeout", Json.num 1000)])]

/-- The same configuration with the address fields spelled in the
snake-case naming convention instead (`trusted_ip`, `admin_ips`,
`manta_ips`); the `name` and `zookeeper` keys coincide in both
conventions. -/
def snakeConfigFields : List (String × Json) :=
  [("name", Json.str "test"),
   ("trusted_ip", Json.str "127.0.0.1"),
   ("admin_ips", Json.arr [Json.str "192.168.1.171"]),
   ("manta_ips", Json.arr [Json.str "192.168.118.13"]),
   ("zookeeper", Json.obj
     [("servers", Json.arr
        [Json.obj [("host", Json.str "zkhost"), ("port", Json.num 9000)]]),
      ("timeout", Json.num 1000)])]

/-- C9 counterexample: two configuration files for the same semantic values
that differ only in the spelling of the field names do not both decode —
the camel-case spelling declared on the struct decodes to the scenario
config, while the snake-case spelling fails, because the deserializer has
no alias support. -/
theorem schema_alias_counterexample :
    decodeConfig parseIpV4 (Json.obj camelConfigFields) =
      Except.ok cfgScenario ∧
    (decodeConfig parseIpV4 (Json.obj snakeConfigFields)).isOk = false := by
  exact ⟨rfl, rfl⟩

/-- C9 (amended): the deserializer accepts exactly one naming convention —
the field names declared on the struct — and any configuration object that
lacks the `trustedIP` key (in particular one spelling it `trusted_ip`)
fails to decode, so there is no alias tolerance for a second naming
convention. -/
theorem missing_trustedIP_fails (parseIp : String → Option IpAddr)
    (fs : List (String × Json)) (h : getField fs "trustedIP" = none) :
    (decodeConfig parseIp (Json.obj fs)).isOk = false := by
  cases hname : decodeName fs <;>
    simp [decodeConfig, decodeTrusted, hname, h, Except.isOk, Except.toBool,
      Bind.bind, Except.bind]

/-- C9 amended witness: the snake-case file lacks the `trustedIP` key and
fails to decode. -/
theorem missing_trustedIP_fails_witness :
    getField snakeConfigFields "trustedIP" = none ∧
    (decodeConfig parseIpV4 (Json.obj snakeConfigFields)).isOk = false :=
  ⟨rfl, missing_trustedIP_fails parseIpV4 snakeConfigFields rfl⟩

/-- C3 amended witness: at the concrete scenario, a previously stored
untrusted set does not change the recomputed result. -/
theorem classify_ignores_previous_untrusted_witness :
    (addUntrustedIpsSet { cfgScenario with untrustedIPs := some {ipU1} }
        invScenario).untrustedIPs =
      (addUntrustedIpsSet cfgScenario invScenario).untrustedIPs :=
  classify_ignores_previous_untrusted cfgScenario invScenario (some {ipU1})

/-- C5 witness: the per-record policy instantiated at the IPv4 parser on a
legacy single-address record. -/
theorem nic_record_policy_witness :
    nicIps parseIpV4 { ips := none, ip := some ipManta } = [ipManta] :=
  (nic_record_policy parseIpV4).2.1 ipManta

/-- C10 witness: the frame condition at the concrete scenario. -/
theorem classify_frame_witness :
    (addUntrustedIpsSet cfgScenario invScenario).name = cfgScenario.name ∧
    (addUntrustedIpsSet cfgScenario invScenario).trustedIP = cfgScenario.trustedIP ∧
    (addUntrustedIpsSet cfgScenario invScenario).adminIPs = cfgScenario.adminIPs ∧
    (addUntrustedIpsSet cfgScenario invScenario).mantaIPs = cfgScenario.mantaIPs ∧
    (addUntrustedIpsSet cfgScenario invScenario).zookeeper = cfgScenario.zookeeper :=
  classify_frame cfgScenario invScenario
